import Mathlib

/-!
# Verification of `chipdrive.py` (tripipy TMC5130 stepper driver)

Shallow embedding of the `tmc5130` class in `src/chipdrive.py`.  Python
numbers are modelled as rationals (`ℚ`); register values as integers (`ℤ`).
Bus activity performed through the `TrinamicDriver` layer (`writeInt`,
`readInt`, `readWriteMultiple`, `enableOutput`) is recorded as a trace of
events, and the values returned by chip reads are supplied by an
environment (`Env`).  Unbounded Python `while` loops are modelled with a
fuel parameter: a `none` result means the loop had not terminated within
the given fuel, and theorems about loop exit are conditional on a `some`
result, which is exactly "the call returns".
-/

namespace Chipdrive

/-- Python 3 `round` on our rational model of Python floats: round half to
even (banker's rounding). -/
def pyRound (q : ℚ) : ℤ :=
  if q - q.floor < 1/2 then q.floor
  else if 1/2 < q - q.floor then q.floor + 1
  else if q.floor % 2 = 0 then q.floor else q.floor + 1

/-- Python `int(...)` applied to a float: truncation toward zero. -/
def pyInt (q : ℚ) : ℤ :=
  if 0 ≤ q then q.floor else q.ceil

/-- One observable action of the driver layer, in issue order.
`readReg`/`writeReg` are `TrinamicDriver.readInt`/`writeInt`;
`batch` is `readWriteMultiple` with its ordered (name, value) pairs and
the parallel access-tag string; `batchRead` is the all-read
`readWriteMultiple` used by the position-polling loop; `enableOutput`
drives the motor-enable pin; `sleep` is `time.sleep`. -/
inductive Event where
  | sleep (t : ℚ)
  | readReg (name : String) (value : ℤ)
  | writeReg (name : String) (value : ℤ)
  | batch (ops : List (String × ℤ)) (actions : String)
  | batchRead (names : List String)
  | enableOutput (b : Bool)
deriving Repr, DecidableEq

/-- A trace of driver-layer actions, oldest first. -/
abbrev Trace := List Event

/-- The `settings` dictionary: the keys of `motor28BYJ_48`, which are the
keys the constructor and `updateSettings` recognise. -/
structure Settings where
  stepsPerRev : ℚ
  maxrpm : ℚ
deriving Repr, DecidableEq

/-- The default settings dict `motor28BYJ_48` of chipdrive.py
(lines 19–22). -/
def motor28BYJ_48 : Settings := { stepsPerRev := 2048/12, maxrpm := 220 }

/-- State of a `tmc5130` instance: the `settings` dict fields, `uSC`,
`clockfrequ`, the derived `ustepsPerRev`, `tconst` and `maxV`, and the
driver layer's register cache `md.lastwritten`.

The cache is modelled from the spec: `trinamicDriver.py` is not under
`src/`; per spec §4.2 a register written through the driver is cached with
the value written.  It is an association list, most recent entry first;
absence of a name means "never written" (spec §3 cache invariant). -/
structure TMCSession where
  stepsPerRev : ℚ
  maxrpm : ℚ
  uSC : ℚ
  clockfrequ : ℚ
  ustepsPerRev : ℚ
  tconst : ℚ
  maxV : ℤ
  lastwritten : List (String × ℤ)
deriving Repr, DecidableEq

/-- `RPMtoVREG` (chipdrive.py lines 82–86):
`return (rpm*self.ustepsPerRev/60) / self.tconst`.  Note: no rounding is
performed here; callers apply `round` when storing the result. -/
def RPMtoVREG (s : TMCSession) (rpm : ℚ) : ℚ :=
  (rpm * s.ustepsPerRev / 60) / s.tconst

/-- The pure field initialisation of `__init__` (chipdrive.py lines 53–58):
store the settings, set `uSC = 256`, `ustepsPerRev = stepsPerRev*uSC`,
`tconst = clockfrequ/2**24`, then `maxV = round(RPMtoVREG(maxrpm))`
computed from the fields just assigned. -/
def mkStateCore (clockfrequ : ℚ) (settings : Settings) : TMCSession :=
  let s0 : TMCSession :=
    { stepsPerRev := settings.stepsPerRev
      maxrpm := settings.maxrpm
      uSC := 256
      clockfrequ := clockfrequ
      ustepsPerRev := settings.stepsPerRev * 256
      tconst := clockfrequ / 2 ^ 24
      maxV := 0
      lastwritten := [] }
  { s0 with maxV := pyRound (RPMtoVREG s0 settings.maxrpm) }

/-- The `regsettings` ordered dict built in `__init__` (lines 61–77),
with the `VMAX` entry holding the session's computed `maxV`. -/
def regsettings (maxV : ℤ) : List (String × ℤ) :=
  [("GSTAT", 0),
   ("GCONF", 4),
   ("CHOPCONF", 0x000100C3),
   ("IHOLD_IRUN", 0x00080F0A),
   ("TPOWERDOWN", 0x0000000A),
   ("TPWMTHRS", 0x000001F4),
   ("VSTART", 1),
   ("A1", 1500),
   ("V1", 100000),
   ("AMAX", 1000),
   ("VMAX", maxV),
   ("DMAX", 1100),
   ("D1", 600),
   ("VSTOP", 10),
   ("RAMPMODE", 0)]

/-- The parallel access-tag string `regactions` of `__init__` (line 78). -/
def regactions : String := "RUWWWWWWWWWWWWW"

/-- Fatal exits and uncaught exceptions raised by the Python code. -/
inductive PyExit where
  | sysExit (code : ℕ)
  | nameError
  | assertionError
deriving Repr, DecidableEq

/-- Modelled from the spec: the effect of the `__init__` batch on the
driver's `lastwritten` cache (`trinamicDriver.py` is not under `src/`).
Per spec §4.2, a register whose tag is `W` or `U` is cached with the value
written; the single `R` register's cached value is the chip's reply, which
depends on the physical chip and is left out of the model (absence means
"unknown", per the spec's cache invariant).  Most recent entry first. -/
def cacheInitBatch (s : TMCSession) : TMCSession :=
  { s with lastwritten :=
      ((((regsettings s.maxV).zip regactions.toList).filter
        (fun p => p.2 ≠ 'R')).map Prod.fst).reverse }

/-- `__init__` (chipdrive.py lines 30–80) after the logging setup: check
`self.pg.connected` (`connected` is its value); when false the code logs
and calls `sys.exit(1)` before any register transaction.  Otherwise build
the session fields, then issue one `readWriteMultiple` batch with
`regsettings` and `regactions`, guarded by the source's
`assert len(regsettings)==len(regactions)`. -/
def tmc5130_init (connected : Bool) (clockfrequ : ℚ) (settings : Settings) :
    Except PyExit (TMCSession × Trace) :=
  if connected then
    let s := mkStateCore clockfrequ settings
    if (regsettings s.maxV).length = regactions.length then
      Except.ok (cacheInitBatch s, [Event.batch (regsettings s.maxV) regactions])
    else
      Except.error PyExit.assertionError
  else
    Except.error (PyExit.sysExit 1)

/-- The partial-update dict accepted by `updateSettings`: each recognised
key may be present or absent. -/
structure Updates where
  stepsPerRev : Option ℚ
  maxrpm : Option ℚ
deriving Repr, DecidableEq

/-- Names visible to Python when `updateSettings` evaluates the expression
`upates` at chipdrive.py line 93: the function's local names plus the
module's global names.  The name `upates` (a slip for `updates`) is bound
in none of these scopes, so evaluating it raises NameError. -/
def updateSettingsScope : List String :=
  ["self", "updates", "pendregs",
   "logging", "pigpio", "time", "sys", "OrderedDict",
   "trinamicDriver", "tmc5130regs", "motor28BYJ_48", "regorder", "tmc5130"]

/-- The body of `updateSettings` (chipdrive.py lines 92–103) translated
under the reading `upates = updates`, i.e. what the method does once its
first branch test can be evaluated at all.  Returns the updated session
and the local `pendregs` list (which the method then discards: no
corrective write is issued).  Python's
`'VMAX' in self.md.lastwritten and self.md.lastwritten['VMAX'] > self.maxV`
is the match on the cache lookup followed by the comparison. -/
def updateSettingsBody (s : TMCSession) (updates : Updates) :
    TMCSession × List String :=
  let pendregs : List String := []
  let step1 : TMCSession × List String :=
    match updates.stepsPerRev with
    | none => (s, pendregs)
    | some spr =>
      let s1 := { s with stepsPerRev := spr }
      let s2 := { s1 with ustepsPerRev := s1.stepsPerRev * s1.uSC }
      let s3 := { s2 with maxV := pyRound (RPMtoVREG s2 s2.maxrpm) }
      match s3.lastwritten.lookup "VMAX" with
      | some w => if s3.maxV < w then (s3, pendregs ++ ["VMAX"]) else (s3, pendregs)
      | none => (s3, pendregs)
  match updates.maxrpm with
  | none => step1
  | some r =>
    let s1 := { step1.1 with maxrpm := r }
    let s2 := { s1 with maxV := pyRound (RPMtoVREG s1 s1.maxrpm) }
    match s2.lastwritten.lookup "VMAX" with
    | some w =>
      if s2.maxV < w ∧ ¬ "VMAX" ∈ step1.2 then (s2, step1.2 ++ ["VMAX"])
      else (s2, step1.2)
    | none => (s2, step1.2)

/-- `updateSettings` (chipdrive.py lines 88–103).  After `pendregs=[]`,
its first statement is `if 'stepsPerRev' in upates:`; Python resolves the
name `upates`, which is bound in no enclosing scope, so every call raises
NameError there — before any instance field is assigned and before any
bus transaction.  An `Except.error` result carries no new session state
and no trace.  The translated remainder (`updateSettingsBody`) is only
reachable if the name were in scope. -/
def updateSettings (s : TMCSession) (updates : Updates) :
    Except PyExit (TMCSession × List String) :=
  if "upates" ∈ updateSettingsScope then
    Except.ok (updateSettingsBody s updates)
  else
    Except.error PyExit.nameError

/-- Chip-side inputs of the motion-control methods: the value `XACTUAL`
reads at the moment `stop` samples it, the successive values returned by
the `VACTUAL` reads of `waitStop`, the successive values of `md.status`
after each batch read of `wait_reached`, and the chip definition's
"at position" status mask.  The mask is modelled from the spec:
`tmc5130regs.py` (the `statusNames` table giving
`self.md.motordef['statusNames']['at position']`) is not under `src/`. -/
structure Env where
  xactual : ℤ
  vactual : ℕ → ℤ
  status : ℕ → ℤ
  atPositionMask : ℤ

/-- The `while` loop of `waitStop` (chipdrive.py lines 120–121), entered
at the `i`-th `VACTUAL` read: read `VACTUAL`; if it is nonzero, sleep
`ticktime` and repeat.  `none` means the loop has not exited within
`fuel` iterations. -/
def waitStopLoop (vactual : ℕ → ℤ) (ticktime : ℚ) : ℕ → ℕ → Option Trace
  | 0, _ => none
  | fuel + 1, i =>
    if vactual i = 0 then
      some [Event.readReg "VACTUAL" (vactual i)]
    else
      (waitStopLoop vactual ticktime fuel (i + 1)).map
        (fun tr => Event.readReg "VACTUAL" (vactual i) :: Event.sleep ticktime :: tr)

/-- `waitStop` (chipdrive.py lines 118–121): `time.sleep(ticktime)`, then
poll `readInt('VACTUAL')`, sleeping `ticktime` between successive reads,
until a read returns exactly 0. -/
def waitStop (vactual : ℕ → ℤ) (ticktime : ℚ) (fuel : ℕ) : Option Trace :=
  (waitStopLoop vactual ticktime fuel 0).map
    (fun tr => Event.sleep ticktime :: tr)

/-- The trace shape produced by a `waitStop` polling loop that reads
`VACTUAL` at indices `i, i+1, …, i+n` and exits on the last read. -/
def pollTrace (vactual : ℕ → ℤ) (ticktime : ℚ) : ℕ → ℕ → Trace
  | i, 0 => [Event.readReg "VACTUAL" (vactual i)]
  | i, n + 1 =>
    Event.readReg "VACTUAL" (vactual i) :: Event.sleep ticktime ::
      pollTrace vactual ticktime (i + 1) n

/-- `stop` (chipdrive.py lines 130–135): read `XACTUAL` and write the
value to `XTARGET`, write `VMAX` with the session's `maxV`, write
`RAMPMODE` with 0, run `waitStop(ticktime=.1)`, then disable output. -/
def stop (s : TMCSession) (env : Env) (fuel : ℕ) : Option Trace :=
  (waitStop env.vactual (1/10) fuel).map
    (fun wtr =>
      [Event.readReg "XACTUAL" env.xactual,
       Event.writeReg "XTARGET" env.xactual,
       Event.writeReg "VMAX" s.maxV,
       Event.writeReg "RAMPMODE" 0] ++ wtr ++ [Event.enableOutput false])

/-- The five registers batch-read by each iteration of `wait_reached`
(chipdrive.py line 107). -/
def waitReachedRegs : List String :=
  ["VACTUAL", "XACTUAL", "XTARGET", "GSTAT", "RAMPSTAT"]

/-- The `while` loop of `wait_reached` (chipdrive.py lines 110–114),
checked against `md.status` after the `k`-th batch read: while
`status & mask == 0`, sleep and issue another batch read. -/
def waitReachedLoop (status : ℕ → ℤ) (mask : ℤ) (ticktime : ℚ) :
    ℕ → ℕ → Option Trace
  | 0, _ => none
  | fuel + 1, k =>
    if Int.land (status k) mask = 0 then
      (waitReachedLoop status mask ticktime fuel (k + 1)).map
        (fun tr => Event.sleep ticktime :: Event.batchRead waitReachedRegs :: tr)
    else
      some []

/-- `wait_reached` (chipdrive.py lines 105–116), default `ticktime=.5`:
sleep, batch-read the five status registers, then loop (sleep, batch-read)
while the "at position" bit of `md.status` is clear.  The `print`
statements are console output only and are not traced. -/
def wait_reached (env : Env) (ticktime : ℚ) (fuel : ℕ) : Option Trace :=
  (waitReachedLoop env.status env.atPositionMask ticktime fuel 0).map
    (fun tr => Event.sleep ticktime :: Event.batchRead waitReachedRegs :: tr)

/-- `goto` (chipdrive.py lines 123–128): enable output, write `XTARGET`
with `int(self.ustepsPerRev*targetpos)`, then — only if `wait` — run
`wait_reached()`; finally (unconditionally, the last statement sits
outside the `if wait:` block) disable output. -/
def goto (s : TMCSession) (env : Env) (targetpos : ℚ) (wait : Bool)
    (fuel : ℕ) : Option Trace :=
  let pre : Trace :=
    [Event.enableOutput true,
     Event.writeReg "XTARGET" (pyInt (s.ustepsPerRev * targetpos))]
  if wait then
    (wait_reached env (1/2) fuel).map
      (fun wtr => pre ++ wtr ++ [Event.enableOutput false])
  else
    some (pre ++ [Event.enableOutput false])

/-- State of the motor-enable line after replaying a trace, starting from
`init`. -/
def outputAfter (init : Bool) : Trace → Bool
  | [] => init
  | Event.enableOutput b :: tr => outputAfter b tr
  | _ :: tr => outputAfter init tr

/-- The value of the last `writeReg` to register `reg` in a trace, if
any: a later write wins; events other than `writeReg reg _` are
ignored. -/
def lastWrite (reg : String) : Trace → Option ℤ
  | [] => none
  | e :: tr =>
    match lastWrite reg tr with
    | some w => some w
    | none =>
      match e with
      | Event.writeReg r v => if r = reg then some v else none
      | _ => none

/-- The velocity-register conversion exactly as the spec words it
(spec §4.4): rpm × microstepsPerRev / 60, divided by the time constant
clockFrequency / 2^24, with microstepsPerRev = stepsPerRevolution × 256.
Stated without the spec's final "rounds to nearest integer" step, to be
compared against the code's `RPMtoVREG`. -/
def rpmToVelocityRegisterSpec (clockFrequency stepsPerRevolution rpm : ℚ) : ℚ :=
  rpm * (stepsPerRevolution * 256) / 60 / (clockFrequency / 2 ^ 24)

/-- The session built by `tmc5130()` with the default arguments
(`clockfrequ=15000000`, `settings=motor28BYJ_48`), before the init
batch. -/
def sDefault : TMCSession := mkStateCore 15000000 motor28BYJ_48

/-- The default session after the `__init__` batch populated the driver's
register cache; in particular `VMAX` was written with `maxV`. -/
def s220 : TMCSession := cacheInitBatch sDefault

/-- A small concrete session with integer-valued derived fields, used to
instantiate the motion-control theorems on concrete inputs. -/
def sSimple : TMCSession :=
  { stepsPerRev := 1
    maxrpm := 60
    uSC := 256
    clockfrequ := 2 ^ 24
    ustepsPerRev := 256
    tconst := 1
    maxV := 256
    lastwritten := [] }

/-- A concrete chip environment: `XACTUAL` reads 5, `VACTUAL` reads 0 at
once, the status word has the (sample) "at position" bit set from the
first poll. -/
def envStill : Env :=
  { xactual := 5
    vactual := fun _ => 0
    status := fun _ => 1
    atPositionMask := 1 }

/-- A concrete chip environment whose `VACTUAL` reads 1 on the first poll
and 0 from the second poll on. -/
def envOnePoll : Env :=
  { xactual := 5
    vactual := fun k => if k = 0 then 1 else 0
    status := fun _ => 1
    atPositionMask := 1 }

/-! ## Helper lemmas: evaluating `Rat.floor`, `pyInt`, `pyRound` -/

theorem ratFloor_eq {q : ℚ} {n : ℤ} (h1 : (n : ℚ) ≤ q) (h2 : q < n + 1) :
    q.floor = n := by
  have hle : n ≤ q.floor := Rat.le_floor.mpr h1
  have hlt : q.floor < n + 1 := by
    by_contra hcon
    push_neg at hcon
    have hc : ((n + 1 : ℤ) : ℚ) ≤ q := Rat.le_floor.mp hcon
    push_cast at hc
    linarith
  omega

theorem pyInt_eq_nonneg {q : ℚ} {n : ℤ} (h0 : 0 ≤ q) (h1 : (n : ℚ) ≤ q)
    (h2 : q < n + 1) : pyInt q = n := by
  unfold pyInt
  rw [if_pos h0, ratFloor_eq h1 h2]

theorem pyRound_eq_of_lt {q : ℚ} {n : ℤ} (h1 : (n : ℚ) ≤ q) (h2 : q < n + 1)
    (hr : q - n < 1/2) : pyRound q = n := by
  unfold pyRound
  rw [ratFloor_eq h1 h2, if_pos hr]

theorem pyRound_eq_of_gt {q : ℚ} {n : ℤ} (h1 : (n : ℚ) ≤ q) (h2 : q < n + 1)
    (hr : 1/2 < q - n) : pyRound q = n + 1 := by
  unfold pyRound
  rw [ratFloor_eq h1 h2, if_neg (by linarith), if_pos hr]

/-! ## Helper lemmas: concrete values of the default session -/

theorem sDefault_ustepsPerRev : sDefault.ustepsPerRev = 131072/3 := by
  show (2048/12 : ℚ) * 256 = 131072/3
  norm_num

theorem sDefault_tconst : sDefault.tconst = 15000000 / 2 ^ 24 := rfl

theorem RPMtoVREG_sDefault_220 :
    RPMtoVREG sDefault 220 = 377957122048/2109375 := by
  unfold RPMtoVREG
  rw [sDefault_ustepsPerRev, sDefault_tconst]
  norm_num

theorem RPMtoVREG_sDefault_100 :
    RPMtoVREG sDefault 100 = 171798691840/2109375 := by
  unfold RPMtoVREG
  rw [sDefault_ustepsPerRev, sDefault_tconst]
  norm_num

theorem pyRound_vmax220 : pyRound ((377957122048 : ℚ)/2109375) = 179180 := by
  have h := pyRound_eq_of_gt (q := (377957122048 : ℚ)/2109375) (n := 179179)
    (by norm_num) (by norm_num) (by norm_num)
  omega

theorem pyRound_vmax100 : pyRound ((171798691840 : ℚ)/2109375) = 81445 :=
  pyRound_eq_of_lt (by norm_num) (by norm_num) (by norm_num)

theorem sDefault_maxV : sDefault.maxV = 179180 := by
  have h0 : sDefault.maxV = pyRound (RPMtoVREG sDefault 220) := rfl
  rw [h0, RPMtoVREG_sDefault_220, pyRound_vmax220]

theorem RPMtoVREG_s220_100 :
    RPMtoVREG { s220 with maxrpm := (100 : ℚ) } 100 = 171798691840/2109375 := by
  have h0 : RPMtoVREG { s220 with maxrpm := (100 : ℚ) } 100 =
      RPMtoVREG sDefault 100 := rfl
  rw [h0, RPMtoVREG_sDefault_100]

/-! ## Helper lemmas: the polling loops and trace observers -/

theorem waitStopLoop_spec (vactual : ℕ → ℤ) (t : ℚ) :
    ∀ fuel i tr, waitStopLoop vactual t fuel i = some tr →
      ∃ n, vactual (i + n) = 0 ∧ (∀ k, k < n → vactual (i + k) ≠ 0) ∧
        tr = pollTrace vactual t i n := by
  intro fuel
  induction fuel with
  | zero => intro i tr h; simp [waitStopLoop] at h
  | succ fuel ih =>
    intro i tr h
    unfold waitStopLoop at h
    by_cases hv : vactual i = 0
    · rw [if_pos hv] at h
      refine ⟨0, by simpa using hv, fun k hk => absurd hk k.not_lt_zero, ?_⟩
      have htr : [Event.readReg "VACTUAL" (vactual i)] = tr := Option.some_inj.mp h
      rw [← htr]
      rfl
    · rw [if_neg hv] at h
      obtain ⟨tr', h1, h2⟩ := Option.map_eq_some'.mp h
      obtain ⟨n, hz, hnz, htr⟩ := ih (i + 1) tr' h1
      refine ⟨n + 1, ?_, ?_, ?_⟩
      · have he : i + (n + 1) = i + 1 + n := by omega
        rw [he]
        exact hz
      · intro k hk
        cases k with
        | zero => simpa using hv
        | succ k =>
          have he : i + (k + 1) = i + 1 + k := by omega
          rw [he]
          exact hnz k (by omega)
      · rw [← h2, htr]
        rfl

theorem pollTrace_concat (vactual : ℕ → ℤ) (t : ℚ) :
    ∀ n i, ∃ pre, pollTrace vactual t i n =
      pre ++ [Event.readReg "VACTUAL" (vactual (i + n))] := by
  intro n
  induction n with
  | zero => intro i; exact ⟨[], by simp [pollTrace]⟩
  | succ n ih =>
    intro i
    obtain ⟨pre, hp⟩ := ih (i + 1)
    refine ⟨Event.readReg "VACTUAL" (vactual i) :: Event.sleep t :: pre, ?_⟩
    have he : i + 1 + n = i + (n + 1) := by omega
    rw [he] at hp
    show Event.readReg "VACTUAL" (vactual i) :: Event.sleep t ::
      pollTrace vactual t (i + 1) n = _
    rw [hp]
    rfl

theorem outputAfter_append (l' : Trace) :
    ∀ (l : Trace) (b : Bool),
      outputAfter b (l ++ l') = outputAfter (outputAfter b l) l' := by
  intro l
  induction l with
  | nil => intro b; rfl
  | cons e tl ih => intro b; cases e <;> simp [outputAfter, ih]

theorem lastWrite_pollTrace (reg : String) (vactual : ℕ → ℤ) (t : ℚ) :
    ∀ n i, lastWrite reg (pollTrace vactual t i n) = none := by
  intro n
  induction n with
  | zero => intro i; rfl
  | succ n ih =>
    intro i
    show lastWrite reg (Event.readReg "VACTUAL" (vactual i) :: Event.sleep t ::
      pollTrace vactual t (i + 1) n) = none
    simp [lastWrite, ih (i + 1)]

theorem lastWrite_append (reg : String) (l' : Trace) (hl' : lastWrite reg l' = none) :
    ∀ l : Trace, lastWrite reg (l ++ l') =
      lastWrite reg l := by
  intro l
  induction l with
  | nil => simpa using hl'
  | cons e tl ih => simp [lastWrite, ih]

/-! ## Claim theorems -/

/-- C9: when the pigpio transport reports not connected at construction
time, `__init__` exits fatally (`sys.exit(1)`) before issuing any
register transaction; no session state and no trace are produced. -/
theorem init_not_connected_aborts (clockfrequ : ℚ) (settings : Settings) :
    tmc5130_init false clockfrequ settings = Except.error (PyExit.sysExit 1) := rfl

/-- C4: every construction with a connected transport issues exactly one
batched register operation, with names GSTAT, GCONF, CHOPCONF, IHOLD_IRUN,
TPOWERDOWN, TPWMTHRS, VSTART, A1, V1, AMAX, VMAX, DMAX, D1, VSTOP,
RAMPMODE in that literal order, with access tags 'R', 'U' and thirteen
'W's in lockstep, and with the VMAX entry carrying the session's computed
`maxV`. -/
theorem init_issues_fixed_batch (clockfrequ : ℚ) (settings : Settings) :
    ∃ s : TMCSession,
      s = mkStateCore clockfrequ settings ∧
      tmc5130_init true clockfrequ settings =
        Except.ok (cacheInitBatch s, [Event.batch (regsettings s.maxV) regactions]) ∧
      (regsettings s.maxV).map Prod.fst =
        ["GSTAT", "GCONF", "CHOPCONF", "IHOLD_IRUN", "TPOWERDOWN", "TPWMTHRS",
         "VSTART", "A1", "V1", "AMAX", "VMAX", "DMAX", "D1", "VSTOP", "RAMPMODE"] ∧
      regactions.toList = ['R', 'U'] ++ List.replicate 13 'W' ∧
      (regsettings s.maxV).length = regactions.length ∧
      (regsettings s.maxV)[10]? = some ("VMAX", s.maxV) :=
  ⟨mkStateCore clockfrequ settings, rfl, rfl, rfl, rfl, rfl, rfl⟩

/-- C10: every call of `updateSettings` raises NameError at its first
branch test (`'stepsPerRev' in upates`, where the name `upates` is bound
in no scope), so no session field is mutated and no bus transaction is
issued: the error result carries no updated state and no trace. -/
theorem updateSettings_always_nameError (s : TMCSession) (u : Updates) :
    updateSettings s u = Except.error PyExit.nameError := by
  unfold updateSettings
  rw [if_neg (show ¬ "upates" ∈ updateSettingsScope by decide)]

/-- C2 counterexample: on the default session at targetpos 1 with
wait=False, `goto` returns having disabled output (the unconditional
`enableOutput(False)` at the end of `goto` runs on this path too), so the
claim that output is left enabled is false at this input. -/
theorem goto_nowait_output_cx :
    (goto sDefault envStill 1 false 0).map (outputAfter true) = some false := rfl

/-- C2 amended: `goto(targetpos, wait=False)` enables output, writes
XTARGET with `int(ustepsPerRev*targetpos)`, performs no polling (the
trace is exactly these three events), and then disables output before
returning: output is left disabled, not enabled. -/
theorem goto_nowait_spec (s : TMCSession) (env : Env) (targetpos : ℚ) (fuel : ℕ) :
    goto s env targetpos false fuel =
      some [Event.enableOutput true,
            Event.writeReg "XTARGET" (pyInt (s.ustepsPerRev * targetpos)),
            Event.enableOutput false] ∧
    outputAfter true
      [Event.enableOutput true,
       Event.writeReg "XTARGET" (pyInt (s.ustepsPerRev * targetpos)),
       Event.enableOutput false] = false :=
  ⟨rfl, rfl⟩

/-- C5 counterexample: on the default session, RPMtoVREG(220) is
377957122048/2109375 ≈ 179179.67, not an integer: it differs from its
own value rounded to the nearest integer, so RPMtoVREG does not return a
rounded result. -/
theorem RPMtoVREG_unrounded_cx :
    RPMtoVREG sDefault 220 ≠ ((pyRound (RPMtoVREG sDefault 220) : ℤ) : ℚ) := by
  rw [RPMtoVREG_sDefault_220, pyRound_vmax220]
  norm_num

/-- C5 amended: `RPMtoVREG(rpm)` returns exactly
rpm × microstepsPerRev / 60 divided by clockFrequency/2^24, without
rounding; the round-to-nearest step is applied by the caller that stores
the value (`maxV = round(RPMtoVREG(maxrpm))` in `__init__`). -/
theorem RPMtoVREG_eq_spec_formula (clockfrequ : ℚ) (settings : Settings) (rpm : ℚ) :
    RPMtoVREG (mkStateCore clockfrequ settings) rpm =
      rpmToVelocityRegisterSpec clockfrequ settings.stepsPerRev rpm ∧
    (mkStateCore clockfrequ settings).maxV =
      pyRound (RPMtoVREG (mkStateCore clockfrequ settings) settings.maxrpm) :=
  ⟨rfl, rfl⟩

/-- C7: for a fixed session (fixed positive ustepsPerRev and tconst),
RPMtoVREG is monotonically non-decreasing in rpm. -/
theorem RPMtoVREG_monotone (s : TMCSession) (rpm1 rpm2 : ℚ)
    (hu : 0 < s.ustepsPerRev) (ht : 0 < s.tconst) (h12 : rpm1 ≤ rpm2) :
    RPMtoVREG s rpm1 ≤ RPMtoVREG s rpm2 := by
  unfold RPMtoVREG
  gcongr

/-- C8: whenever `waitStop` returns, it slept first, then alternated
(read VACTUAL, sleep); the reads before the last all returned nonzero and
the final read returned exactly 0 — the trace ends with a read of VACTUAL
yielding 0, so the call never returns while the most recently read
VACTUAL is nonzero. -/
theorem waitStop_poll_spec (vactual : ℕ → ℤ) (ticktime : ℚ) (fuel : ℕ)
    (tr : Trace) (h : waitStop vactual ticktime fuel = some tr) :
    ∃ n, vactual n = 0 ∧ (∀ k, k < n → vactual k ≠ 0) ∧
      tr = Event.sleep ticktime :: pollTrace vactual ticktime 0 n ∧
      ∃ pre, tr = pre ++ [Event.readReg "VACTUAL" 0] := by
  unfold waitStop at h
  obtain ⟨tr', h1, h2⟩ := Option.map_eq_some'.mp h
  obtain ⟨n, hz, hnz, htr⟩ := waitStopLoop_spec vactual ticktime fuel 0 tr' h1
  obtain ⟨pre, hp⟩ := pollTrace_concat vactual ticktime n 0
  rw [hz] at hp
  refine ⟨n, by simpa using hz, fun k hk => by simpa using hnz k hk, ?_, ?_⟩
  · rw [← h2, htr]
  · refine ⟨Event.sleep ticktime :: pre, ?_⟩
    rw [← h2, htr, hp]
    rfl

/-- C8 witness: the `waitStop` theorem applied to a run whose VACTUAL
reads 1 on the first poll and 0 on the second, ticktime 1, fuel 2. -/
theorem waitStop_poll_spec_witness :
    waitStop envOnePoll.vactual 1 2 =
      some [Event.sleep 1, Event.readReg "VACTUAL" 1, Event.sleep 1,
            Event.readReg "VACTUAL" 0] ∧
    (∃ n, envOnePoll.vactual n = 0 ∧
      (∀ k, k < n → envOnePoll.vactual k ≠ 0) ∧
      [Event.sleep 1, Event.readReg "VACTUAL" 1, Event.sleep 1,
       Event.readReg "VACTUAL" 0] =
        Event.sleep 1 :: pollTrace envOnePoll.vactual 1 0 n ∧
      ∃ pre, [Event.sleep 1, Event.readReg "VACTUAL" 1, Event.sleep 1,
              Event.readReg "VACTUAL" 0] =
        pre ++ [Event.readReg "VACTUAL" 0]) :=
  ⟨rfl, waitStop_poll_spec envOnePoll.vactual 1 2 _ rfl⟩

/-- C3: whenever `stop` returns, its trace is exactly: read XACTUAL,
write XTARGET with the value just read, write VMAX with the session's
maxV, write RAMPMODE with 0, then the VACTUAL poll (which ends on a read
of exactly 0), then disable output; afterwards output is disabled and the
last XTARGET write equals the XACTUAL observed at invocation. -/
theorem stop_spec (s : TMCSession) (env : Env) (fuel : ℕ) (tr : Trace)
    (h : stop s env fuel = some tr) :
    ∃ n, env.vactual n = 0 ∧ (∀ k, k < n → env.vactual k ≠ 0) ∧
      tr = [Event.readReg "XACTUAL" env.xactual,
            Event.writeReg "XTARGET" env.xactual,
            Event.writeReg "VMAX" s.maxV,
            Event.writeReg "RAMPMODE" 0,
            Event.sleep (1/10)] ++ pollTrace env.vactual (1/10) 0 n
        ++ [Event.enableOutput false] ∧
      outputAfter true tr = false ∧
      lastWrite "XTARGET" tr = some env.xactual := by
  unfold stop at h
  obtain ⟨wtr, h1, h2⟩ := Option.map_eq_some'.mp h
  unfold waitStop at h1
  obtain ⟨ltr, hl1, hl2⟩ := Option.map_eq_some'.mp h1
  obtain ⟨n, hz, hnz, htr⟩ := waitStopLoop_spec env.vactual (1/10) fuel 0 ltr hl1
  have hwtr : wtr = Event.sleep (1/10) :: pollTrace env.vactual (1/10) 0 n := by
    rw [← hl2, htr]
  have htrace : tr =
      [Event.readReg "XACTUAL" env.xactual, Event.writeReg "XTARGET" env.xactual,
       Event.writeReg "VMAX" s.maxV, Event.writeReg "RAMPMODE" 0,
       Event.sleep (1/10)] ++ pollTrace env.vactual (1/10) 0 n
      ++ [Event.enableOutput false] := by
    rw [← h2, hwtr]
    simp
  refine ⟨n, by simpa using hz, fun k hk => by simpa using hnz k hk, htrace, ?_, ?_⟩
  · rw [htrace, outputAfter_append]
    rfl
  · rw [htrace, lastWrite_append "XTARGET" [Event.enableOutput false] rfl,
      lastWrite_append "XTARGET" (pollTrace env.vactual (1/10) 0 n)
        (lastWrite_pollTrace "XTARGET" env.vactual (1/10) n 0)]
    rfl

/-- C3 witness: the `stop` theorem applied to `sSimple` in the
environment where XACTUAL reads 5 and VACTUAL reads 0 at once. -/
theorem stop_spec_witness :
    stop sSimple envStill 1 =
      some [Event.readReg "XACTUAL" 5, Event.writeReg "XTARGET" 5,
            Event.writeReg "VMAX" 256, Event.writeReg "RAMPMODE" 0,
            Event.sleep (1/10), Event.readReg "VACTUAL" 0,
            Event.enableOutput false] ∧
    (∃ n, envStill.vactual n = 0 ∧ (∀ k, k < n → envStill.vactual k ≠ 0) ∧
      [Event.readReg "XACTUAL" 5, Event.writeReg "XTARGET" 5,
       Event.writeReg "VMAX" 256, Event.writeReg "RAMPMODE" 0,
       Event.sleep (1/10), Event.readReg "VACTUAL" 0,
       Event.enableOutput false] =
        [Event.readReg "XACTUAL" 5, Event.writeReg "XTARGET" 5,
         Event.writeReg "VMAX" 256, Event.writeReg "RAMPMODE" 0,
         Event.sleep (1/10)] ++ pollTrace envStill.vactual (1/10) 0 n
        ++ [Event.enableOutput false] ∧
      outputAfter true
        [Event.readReg "XACTUAL" 5, Event.writeReg "XTARGET" 5,
         Event.writeReg "VMAX" 256, Event.writeReg "RAMPMODE" 0,
         Event.sleep (1/10), Event.readReg "VACTUAL" 0,
         Event.enableOutput false] = false ∧
      lastWrite "XTARGET"
        [Event.readReg "XACTUAL" 5, Event.writeReg "XTARGET" 5,
         Event.writeReg "VMAX" 256, Event.writeReg "RAMPMODE" 0,
         Event.sleep (1/10), Event.readReg "VACTUAL" 0,
         Event.enableOutput false] = some 5) :=
  ⟨rfl, stop_spec sSimple envStill 1 _ rfl⟩

/-- Evaluation helper: the XTARGET value `goto` writes at targetpos 1 on
the default session — truncation toward zero of 131072/3 ≈ 43690.67. -/
theorem pyInt_sDefault_1 : pyInt (sDefault.ustepsPerRev * 1) = 43690 := by
  rw [sDefault_ustepsPerRev]
  exact pyInt_eq_nonneg (by norm_num) (by norm_num) (by norm_num)

/-- Evaluation helper: the same product rounded to nearest is 43691. -/
theorem pyRound_sDefault_1 : pyRound (sDefault.ustepsPerRev * 1) = 43691 := by
  rw [sDefault_ustepsPerRev]
  have h := pyRound_eq_of_gt (q := (131072 : ℚ)/3 * 1) (n := 43690)
    (by norm_num) (by norm_num) (by norm_num)
  omega

/-- C6 counterexample: at targetpos 1 on the default session, the value
`goto` writes to XTARGET is 43690 (Python `int()` truncation of
131072/3), while round-to-nearest of the same product is 43691 — so the
written value is not targetpos × microstepsPerRev rounded to nearest. -/
theorem goto_xtarget_truncates_cx :
    (goto sDefault envStill 1 false 0).map (lastWrite "XTARGET") =
      some (some 43690) ∧
    pyRound (sDefault.ustepsPerRev * 1) = 43691 ∧ (43690 : ℤ) ≠ 43691 := by
  refine ⟨?_, pyRound_sDefault_1, by decide⟩
  have h1 : (goto sDefault envStill 1 false 0).map (lastWrite "XTARGET") =
      some (some (pyInt (sDefault.ustepsPerRev * 1))) := rfl
  rw [h1, pyInt_sDefault_1]

/-- C6 amended: for every goto call (either wait mode) that returns, the
value written to XTARGET — the second traced event — is
targetpos × ustepsPerRev truncated toward zero (Python `int()`), not
rounded to nearest. -/
theorem goto_xtarget_value (s : TMCSession) (env : Env) (targetpos : ℚ)
    (wait : Bool) (fuel : ℕ) (tr : Trace)
    (h : goto s env targetpos wait fuel = some tr) :
    tr[1]? = some (Event.writeReg "XTARGET" (pyInt (s.ustepsPerRev * targetpos))) := by
  unfold goto at h
  cases wait with
  | true =>
    rw [if_pos rfl] at h
    obtain ⟨wtr, h1, h2⟩ := Option.map_eq_some'.mp h
    rw [← h2]
    simp
  | false =>
    rw [if_neg Bool.false_ne_true] at h
    rw [← Option.some_inj.mp h]
    rfl

/-- C6 witness: the XTARGET-value theorem applied to `sSimple` at
targetpos 2 with wait=False. -/
theorem goto_xtarget_value_witness :
    goto sSimple envStill 2 false 0 =
      some [Event.enableOutput true,
            Event.writeReg "XTARGET" (pyInt (sSimple.ustepsPerRev * 2)),
            Event.enableOutput false] ∧
    [Event.enableOutput true,
     Event.writeReg "XTARGET" (pyInt (sSimple.ustepsPerRev * 2)),
     Event.enableOutput false][1]? =
      some (Event.writeReg "XTARGET" (pyInt (sSimple.ustepsPerRev * 2))) :=
  ⟨rfl, goto_xtarget_value sSimple envStill 2 false 0 _ rfl⟩

/-- Evaluation helper: after `__init__`, the driver cache of the default
session holds VMAX ↦ 179180. -/
theorem s220_lastwritten_vmax :
    s220.lastwritten.lookup "VMAX" = some (179180 : ℤ) := by
  have h0 : s220.lastwritten.lookup "VMAX" = some sDefault.maxV := rfl
  rw [h0, sDefault_maxV]

/-- Evaluation helper: the recomputed maxV for maxrpm 100 on the default
session is 81445. -/
theorem pyRound_s220_100 :
    pyRound (RPMtoVREG { s220 with maxrpm := (100 : ℚ) } 100) = 81445 := by
  rw [RPMtoVREG_s220_100, pyRound_vmax100]

/-- Evaluation helper: what the body of `updateSettings` (with the typo
read as `updates`) does on the default session for {'maxrpm': 100}:
updates maxrpm, recomputes maxV, and queues 'VMAX' since the cached VMAX
(179180) exceeds the new maxV (81445). -/
theorem updateSettingsBody_s220 :
    updateSettingsBody s220 { stepsPerRev := none, maxrpm := some 100 } =
      ({ { s220 with maxrpm := (100 : ℚ) } with
          maxV := pyRound (RPMtoVREG { s220 with maxrpm := (100 : ℚ) } 100) },
        ["VMAX"]) := by
  simp only [updateSettingsBody, s220_lastwritten_vmax, pyRound_s220_100]
  norm_num

/-- C1 (the `upates` slip): calling updateSettings({'maxrpm': 100}) on
the default session (maxrpm=220, VMAX written at maxV=179180) raises
NameError, so the claimed recompute-and-queue behaviour never happens.
The remaining conjuncts certify the claim's arithmetic on the translated
body (typo read as `updates`): it would recompute maxV to
round(100 × ustepsPerRev / 60 / tconst) = 81445, strictly below the old
179180, and queue 'VMAX'. -/
theorem updateSettings_c1_bug :
    updateSettings s220 { stepsPerRev := none, maxrpm := some 100 } =
      Except.error PyExit.nameError ∧
    (updateSettingsBody s220 { stepsPerRev := none, maxrpm := some 100 }).1.maxV =
      pyRound (RPMtoVREG { s220 with maxrpm := (100 : ℚ) } 100) ∧
    (updateSettingsBody s220 { stepsPerRev := none, maxrpm := some 100 }).1.maxV
      < s220.maxV ∧
    (updateSettingsBody s220 { stepsPerRev := none, maxrpm := some 100 }).2 =
      ["VMAX"] := by
  have h220 : s220.maxV = 179180 := by
    have h0 : s220.maxV = sDefault.maxV := rfl
    rw [h0, sDefault_maxV]
  refine ⟨?_, ?_, ?_, ?_⟩
  · unfold updateSettings
    rw [if_neg (show ¬ "upates" ∈ updateSettingsScope by decide)]
  · rw [updateSettingsBody_s220]
  · rw [updateSettingsBody_s220, pyRound_s220_100, h220]
    decide
  · rw [updateSettingsBody_s220]

/-- C7 witness: the monotonicity theorem applied to the default session
at rpm 100 ≤ 220. -/
theorem RPMtoVREG_monotone_witness :
    0 < sDefault.ustepsPerRev ∧ 0 < sDefault.tconst ∧ (100 : ℚ) ≤ 220 ∧
      RPMtoVREG sDefault 100 ≤ RPMtoVREG sDefault 220 :=
  ⟨by rw [sDefault_ustepsPerRev]; norm_num,
   by rw [sDefault_tconst]; norm_num,
   by norm_num,
   RPMtoVREG_monotone sDefault 100 220
     (by rw [sDefault_ustepsPerRev]; norm_num)
     (by rw [sDefault_tconst]; norm_num)
     (by norm_num)⟩

end Chipdrive
